import Mathlib

/-!
Verification of the ndvicalc repository (NDVICalc, src/ndvicalc/ndvi.py).

This file gives a shallow embedding of the parts of the program the claims
are about: the geometry resolution in NDVICalc._get_file_geometry, the
pixel-window computation and bounds check in NDVICalc.calc_ndvi, the index
formula in NDVICalc._get_ndvi (scalar, plain numpy array and numpy masked
array form), and the statistics/state update at the end of calc_ndvi.
Machine floats are modelled by exact rationals; numpy masked arrays by
lists of optional rationals (none models a masked cell).
-/

/-- A JSON-like value, as produced by Python json.load or requests .json()
on the input geoJSON file. -/
inductive Json where
  | null : Json
  | bool (b : Bool) : Json
  | num (q : ℚ) : Json
  | str (s : String) : Json
  | arr (elems : List Json) : Json
  | obj (fields : List (String × Json)) : Json

/-- Lookup of a key in a Python dict, represented as an association list
(keys of a parsed JSON object are unique). -/
def lookupField : List (String × Json) → String → Option Json
  | [], _ => none
  | (k, v) :: rest, key => if k = key then some v else lookupField rest key

/-- Python subscription content[key]. The result none models an uncaught
Python exception: KeyError for a missing key, TypeError when the value is
not a dict. Only JSONDecodeError is caught in _get_file_geometry, so these
exceptions propagate. -/
def Json.getItem : Json → String → Option Json
  | .obj fields, key => lookupField fields key
  | _, _ => none

/-- The Python comparison content[...] == s with s a string literal: a
non-string value compares unequal, never raises. -/
def isTypeStr (t : Json) (s : String) : Bool :=
  match t with
  | .str v => v == s
  | _ => false

/-- Outcome of NDVICalc._get_file_geometry (src/ndvicalc/ndvi.py lines
45-77) on parsed content. geom g warned: the function returned geometry g,
and warned records whether the more-than-one-feature warning was printed.
invalidJson: json.load raised JSONDecodeError, which is caught, a message
is printed and None is returned. pyError: an uncaught Python exception
(KeyError / TypeError / IndexError) propagates out of the method. -/
inductive GeomResult where
  | geom (g : Json) (warned : Bool) : GeomResult
  | invalidJson : GeomResult
  | pyError : GeomResult

/-- Embedding of NDVICalc._get_file_geometry (src/ndvicalc/ndvi.py lines
45-77), starting from the parse outcome of the file or HTTP body: type
Feature unwraps to its geometry; type FeatureCollection takes the first
feature and warns exactly when there is more than one feature; any other
type value falls through the if/elif chain and the content is returned
unchanged; a JSONDecodeError is caught and None (invalidJson) returned. -/
def getFileGeometry : Except Unit Json → GeomResult
  | .error _ => .invalidJson
  | .ok content =>
    match content.getItem "type" with
    | none => .pyError
    | some t =>
      if isTypeStr t "Feature" then
        match content.getItem "geometry" with
        | none => .pyError
        | some g => .geom g false
      else if isTypeStr t "FeatureCollection" then
        match content.getItem "features" with
        | some (.arr (f :: rest)) =>
          match f.getItem "geometry" with
          | none => .pyError
          | some g => .geom g (!rest.isEmpty)
        | _ => .pyError
      else .geom content false

/-- Exit status of the Python builtin exit(arg): exit() with no argument
raises SystemExit(None), and the interpreter terminates with status 0;
exit(n) terminates with status n. Both abort sites in calc_ndvi call
exit() with no argument. -/
def pyExitCode : Option ℤ → ℤ
  | none => 0
  | some n => n

/-- How calc_ndvi (src/ndvicalc/ndvi.py lines 155-158) starts: aborted
models the print plus exit() taken when _get_file_geometry returned None;
crashed models an uncaught exception from _get_file_geometry; proceeds g
means execution continues into the extraction loop with geometry g. -/
inductive CalcStart where
  | aborted (exitCode : ℤ) : CalcStart
  | crashed : CalcStart
  | proceeds (geometry : Json) : CalcStart

/-- Embedding of the front of NDVICalc.calc_ndvi (lines 155-158): the
geometry is resolved; if it is None the method prints an abort message and
calls exit() with no argument (exit status 0); otherwise it proceeds. -/
def calcNdviStart (parsed : Except Unit Json) : CalcStart :=
  match getFileGeometry parsed with
  | .invalidJson => .aborted (pyExitCode none)
  | .pyError => .crashed
  | .geom g _ => .proceeds g

/-- A rasterio window built by Window.from_slices((row_start, row_stop),
(col_start, col_stop)) in calc_ndvi lines 189-198. -/
structure PixelWindow where
  rowStart : ℤ
  rowStop : ℤ
  colStart : ℤ
  colStop : ℤ
  deriving DecidableEq

/-- Outcome of the bounds check and read in calc_ndvi lines 180-199:
aborted code models the two printed messages followed by exit() (the
GeometryOutOfBounds condition of the spec); readWindow w models that
url_fp.read(1, window=w) was issued. -/
inductive ExtractStep where
  | aborted (exitCode : ℤ) : ExtractStep
  | readWindow (w : PixelWindow) : ExtractStep
  deriving DecidableEq

/-- The for-loop over pixel_upper_left + pixel_lower_right in calc_ndvi
lines 180-186: it scans the four coordinates in order and exits on the
first negative one. -/
def anyNegative : List ℤ → Bool
  | [] => false
  | p :: ps => if p < 0 then true else anyNegative ps

/-- Embedding of calc_ndvi lines 180-199 for one band: run the bounds
check over the four pixel coordinates (row and column of pixel_upper_left
and pixel_lower_right); on a negative coordinate print and exit() before
any read; otherwise build the window from the two corner pixels and issue
the windowed read. -/
def checkAndRead (pul plr : ℤ × ℤ) : ExtractStep :=
  if anyNegative [pul.1, pul.2, plr.1, plr.2] then .aborted (pyExitCode none)
  else .readWindow ⟨pul.1, plr.1, pul.2, plr.2⟩

/-- An affine georeferencing transform (the affine package used by
rasterio), mapping pixel (col, row) to world (x, y) by
x = a*col + b*row + c and y = d*col + e*row + f. -/
structure AffineTransform where
  a : ℚ
  b : ℚ
  c : ℚ
  d : ℚ
  e : ℚ
  f : ℚ
  deriving DecidableEq

/-- rasterio DatasetReader.index(x, y) as called in calc_ndvi lines
171-178: apply the inverse affine transform to (x, y) and floor both
fractional coordinates (the default op of rasterio.transform.rowcol is
math.floor), returning (row, col). The determinant is nonzero for every
georeferenced raster; rational division by zero is the junk value 0. -/
def rowcol (t : AffineTransform) (x y : ℚ) : ℤ × ℤ :=
  let det := t.a * t.e - t.b * t.d
  let fcol := (t.e * (x - t.c) - t.b * (y - t.f)) / det
  let frow := (t.a * (y - t.f) - t.d * (x - t.c)) / det
  (⌊frow⌋, ⌊fcol⌋)

/-- The pixel-window computation of calc_ndvi lines 164-199 for one band,
as a function of the transformed corner coordinates and the raster affine
transform: compute pixel_upper_left and pixel_lower_right with index, run
the bounds check, and form the row/column slices of the window. -/
def extractPipeline (t : AffineTransform) (coordUL coordLR : ℚ × ℚ) : ExtractStep :=
  checkAndRead (rowcol t coordUL.1 coordUL.2) (rowcol t coordLR.1 coordLR.2)

/-- NDVICalc._get_ndvi (src/ndvicalc/ndvi.py lines 79-96) on two scalars:
(nir - red) / (nir + red), with Python floats modelled by rationals. -/
def get_ndvi (nir red : ℚ) : ℚ := (nir - red) / (nir + red)

/-- Result of a numpy array operation: ok on success, valueError models
the generic ValueError numpy raises when the operand shapes cannot be
broadcast together. -/
inductive NpResult (α : Type) where
  | ok (v : α) : NpResult α
  | valueError : NpResult α
  deriving DecidableEq

/-- numpy 1-D broadcasting of two lengths: equal lengths stay, a length-1
operand stretches to the other length, anything else fails. -/
def broadcastLen (n m : ℕ) : Option ℕ :=
  if n = m then some n else if n = 1 then some m else if m = 1 then some n else none

/-- Stretch a numpy 1-D array to the broadcast length (only ever applied
with len produced by broadcastLen). -/
def broadcastTo (xs : List ℚ) (len : ℕ) : List ℚ :=
  if xs.length = len then xs else
    match xs with
    | [x] => List.replicate len x
    | _ => xs

/-- NDVICalc._get_ndvi applied to two plain 1-D numpy float arrays:
(nir - red) / (nir + red) elementwise under numpy broadcasting. The
source performs no shape check of its own: equal-length inputs combine
elementwise, a length-1 input is silently broadcast, and incompatible
lengths make numpy itself raise a generic ValueError in the middle of the
arithmetic. -/
def np_get_ndvi (nir red : List ℚ) : NpResult (List ℚ) :=
  match broadcastLen nir.length red.length with
  | none => .valueError
  | some len =>
    .ok (List.zipWith (fun n r => (n - r) / (n + r))
      (broadcastTo nir len) (broadcastTo red len))

/-- One cell of _get_ndvi on numpy masked arrays (the call at calc_ndvi
line 253, on the masked_invalid outputs of line 250): the numpy.ma
arithmetic masks a result cell when either operand cell is masked, and
the masked division additionally masks cells whose denominator is zero
(the domain of numpy.ma true division); none models a masked cell. -/
def ndviCell : Option ℚ → Option ℚ → Option ℚ
  | some n, some r => if n + r = 0 then none else some ((n - r) / (n + r))
  | _, _ => none

/-- _get_ndvi on two equally shaped masked arrays, cellwise (the 2-D
arrays of the source are flattened; numpy statistics reduce over all
axes, so the flattening is faithful). -/
def getNdviMA (nir red : List (Option ℚ)) : List (Option ℚ) :=
  List.zipWith ndviCell nir red

/-- The unmasked (valid) values of a masked array, in order. -/
def maVals (xs : List (Option ℚ)) : List ℚ := xs.filterMap id

/-- numpy MaskedArray.mean(): the mean over unmasked cells only; on a
fully masked array numpy returns the masked constant (none), it does not
raise. -/
def maMean (xs : List (Option ℚ)) : Option ℚ :=
  if maVals xs = [] then none
  else some ((maVals xs).sum / ((maVals xs).length : ℚ))

/-- numpy MaskedArray.max(): maximum over unmasked cells; masked constant
on a fully masked array. -/
def maMax (xs : List (Option ℚ)) : Option ℚ :=
  match maVals xs with
  | [] => none
  | v :: vs => some (vs.foldl max v)

/-- numpy MaskedArray.min(): minimum over unmasked cells; masked constant
on a fully masked array. -/
def maMin (xs : List (Option ℚ)) : Option ℚ :=
  match maVals xs with
  | [] => none
  | v :: vs => some (vs.foldl min v)

/-- The variance over unmasked cells (numpy MaskedArray.var() with the
default ddof 0); masked constant on a fully masked array. The standard
deviation MaskedArray.std() of the source is the nonnegative square root
of this value, which is irrational in general; the square is used as the
stored statistic, and it is masked exactly when std is masked. -/
def maVar (xs : List (Option ℚ)) : Option ℚ :=
  if maVals xs = [] then none
  else
    some ((((maVals xs).map
      (fun v => (v - (maVals xs).sum / ((maVals xs).length : ℚ)) ^ 2)).sum)
      / ((maVals xs).length : ℚ))

/-- The result fields of the NDVICalc instance (set to None in __init__,
src/ndvicalc/ndvi.py lines 39-43). The outer Option is Python None versus
a stored value; the inner Option is a numpy masked scalar (none) versus a
number. ndvi_std stores the variance, see maVar. -/
structure CalcState where
  ndvi_array : Option (List (Option ℚ))
  ndvi_avg : Option (Option ℚ)
  ndvi_max : Option (Option ℚ)
  ndvi_min : Option (Option ℚ)
  ndvi_std : Option (Option ℚ)
  deriving DecidableEq

/-- The freshly constructed NDVICalc instance: all five result fields are
Python None. -/
def initState : CalcState :=
  ⟨none, none, none, none, none⟩

/-- Embedding of the statistics tail of calc_ndvi (src/ndvicalc/ndvi.py
lines 252-263): self.ndvi_array and self.ndvi_avg are always assigned;
self.ndvi_max, self.ndvi_min and self.ndvi_std are assigned only inside
the `if full_statistics` block. -/
def statsUpdate (s : CalcState) (nir red : List (Option ℚ))
    (full_statistics : Bool) : CalcState :=
  let arr := getNdviMA nir red
  let s1 : CalcState := { s with ndvi_array := some arr, ndvi_avg := some (maMean arr) }
  if full_statistics then
    { s1 with ndvi_max := some (maMax arr), ndvi_min := some (maMin arr),
              ndvi_std := some (maVar arr) }
  else s1

/-- The characters of the Python string literal "http". -/
def httpChars : List Char := ['h', 't', 't', 'p']

/-- The characters of the Python string literal "https". -/
def httpsChars : List Char := ['h', 't', 't', 'p', 's']

/-- Whether hay starts with needle, character by character (the anchored
step of the Python substring test). -/
def startsWith : List Char → List Char → Bool
  | [], _ => true
  | _ :: _, [] => false
  | n :: ns, h :: hs => n == h && startsWith ns hs

/-- The Python substring operator needle in hay: true exactly when needle
occurs contiguously somewhere in hay. -/
def pyIn (needle : List Char) : List Char → Bool
  | [] => startsWith needle []
  | h :: hs => startsWith needle (h :: hs) || pyIn needle hs

/-- The branch condition of _get_file_geometry line 57:
"http" in file_path or "https" in file_path. -/
def urlBranch (s : List Char) : Bool :=
  pyIn httpChars s || pyIn httpsChars s

/-- Which access _get_file_geometry performs for a given file_path:
requests.get (remoteFetch) when the branch condition holds, open on the
local filesystem (localOpen) otherwise. -/
inductive FileAccess where
  | remoteFetch : FileAccess
  | localOpen : FileAccess
  deriving DecidableEq

/-- The file access taken by _get_file_geometry lines 56-66. -/
def geometryAccess (s : List Char) : FileAccess :=
  if urlBranch s then .remoteFetch else .localOpen

/-- A concrete bare geometry object: type Polygon, not wrapped in a
Feature or FeatureCollection. -/
def polyGeom : Json :=
  Json.obj [("type", Json.str "Polygon"), ("coordinates", Json.arr [])]

/-- Helper: the bounds-check loop over the four pixel coordinates finds a
negative entry exactly when one of them is negative. -/
theorem anyNegative_four (p q r s : ℤ) :
    anyNegative [p, q, r, s] = true ↔ (p < 0 ∨ q < 0 ∨ r < 0 ∨ s < 0) := by
  simp only [anyNegative]
  split_ifs with h1 h2 h3 h4 <;> simp_all

/-- Claim C1: in calc_ndvi, if any of the four computed pixel coordinates
(the rows and columns of pixel_upper_left and pixel_lower_right) is
negative, the band extraction aborts via the out-of-bounds messages and
exit() and no windowed read is issued; the windowed read (with the slices
built from the two corner pixels) happens exactly when all four
coordinates are nonnegative. -/
theorem calc_ndvi_bounds_check (pul plr : ℤ × ℤ) :
    ((pul.1 < 0 ∨ pul.2 < 0 ∨ plr.1 < 0 ∨ plr.2 < 0) →
      checkAndRead pul plr = ExtractStep.aborted 0) ∧
    (0 ≤ pul.1 → 0 ≤ pul.2 → 0 ≤ plr.1 → 0 ≤ plr.2 →
      checkAndRead pul plr = ExtractStep.readWindow ⟨pul.1, plr.1, pul.2, plr.2⟩) ∧
    (∀ w, checkAndRead pul plr = ExtractStep.readWindow w →
      0 ≤ pul.1 ∧ 0 ≤ pul.2 ∧ 0 ≤ plr.1 ∧ 0 ≤ plr.2) := by
  refine ⟨?_, ?_, ?_⟩
  · intro h
    have hA : anyNegative [pul.1, pul.2, plr.1, plr.2] = true :=
      (anyNegative_four pul.1 pul.2 plr.1 plr.2).2 h
    simp [checkAndRead, hA, pyExitCode]
  · intro h1 h2 h3 h4
    have hA : anyNegative [pul.1, pul.2, plr.1, plr.2] = false := by
      cases hc : anyNegative [pul.1, pul.2, plr.1, plr.2] with
      | false => rfl
      | true =>
        rcases (anyNegative_four pul.1 pul.2 plr.1 plr.2).1 hc with h | h | h | h <;> omega
    simp [checkAndRead, hA]
  · intro w hw
    cases hc : anyNegative [pul.1, pul.2, plr.1, plr.2] with
    | true => simp [checkAndRead, hc] at hw
    | false =>
      have := (anyNegative_four pul.1 pul.2 plr.1 plr.2)
      rw [hc] at this
      simp only [Bool.false_eq_true, false_iff, not_or, not_lt] at this
      exact ⟨this.1, this.2.1, this.2.2.1, this.2.2.2⟩

/-- Witness for C1: at the concrete corner pixels (-1, 5) and (3, 4) the
extraction aborts before any read. -/
theorem calc_ndvi_bounds_check_witness :
    checkAndRead (-1, 5) (3, 4) = ExtractStep.aborted 0 :=
  (calc_ndvi_bounds_check (-1, 5) (3, 4)).1 (Or.inl (by norm_num))

/-- Claim C2: for reflectances nir, red with nir ≥ 0, red ≥ 0 and
nir + red ≠ 0, the value of _get_ndvi lies in the closed interval
[-1, 1]. -/
theorem get_ndvi_range (nir red : ℚ) (hn : 0 ≤ nir) (hr : 0 ≤ red)
    (hd : nir + red ≠ 0) :
    -1 ≤ get_ndvi nir red ∧ get_ndvi nir red ≤ 1 := by
  have hpos : 0 < nir + red := lt_of_le_of_ne (add_nonneg hn hr) (Ne.symm hd)
  unfold get_ndvi
  constructor
  · rw [le_div_iff₀ hpos]
    linarith
  · rw [div_le_one hpos]
    linarith

/-- Witness for C2: at nir = 42, red = 32 the index is within [-1, 1]. -/
theorem get_ndvi_range_witness :
    -1 ≤ get_ndvi 42 32 ∧ get_ndvi 42 32 ≤ 1 :=
  get_ndvi_range 42 32 (by norm_num) (by norm_num) (by norm_num)

/-- Claim C6: _get_ndvi at the scalars 42.0 and 32.0 returns
(42 - 32) / (42 + 32) = 10/74, which agrees with 0.135135 to at least
five decimal places. -/
theorem get_ndvi_42_32 :
    get_ndvi 42 32 = 10 / 74 ∧
    |get_ndvi 42 32 - 135135 / 1000000| < 1 / 100000 := by
  constructor
  · norm_num [get_ndvi]
  · rw [show get_ndvi 42 32 = 5 / 37 by norm_num [get_ndvi]]
    rw [abs_sub_lt_iff]
    constructor <;> norm_num

/-- Helper: a masked cell contributes no value to the valid-value list of
a masked array. -/
theorem maVals_cons_none (xs : List (Option ℚ)) :
    maVals (none :: xs) = maVals xs := by
  simp [maVals]

/-- Claim C3 (amended): the summary statistics of the index are computed
only over valid (unmasked) cells. A pixel whose denominator nir + red is
zero, or whose input cell was masked, is masked in the index array, and
masked cells are invisible to every statistic (in particular they are
never coerced to 0). However, when zero valid cells remain, calc_ndvi
completes and stores the numpy masked constant in every statistic; no
NoValidPixels error is raised. -/
theorem ndvi_statistics_masked_cells (nir red xs : List (Option ℚ))
    (s : CalcState) (n r : ℚ) :
    ndviCell none (some r) = none ∧
    ndviCell (some n) none = none ∧
    (n + r = 0 → ndviCell (some n) (some r) = none) ∧
    (n + r ≠ 0 → ndviCell (some n) (some r) = some ((n - r) / (n + r))) ∧
    (maMean (none :: xs) = maMean xs ∧ maMax (none :: xs) = maMax xs ∧
     maMin (none :: xs) = maMin xs ∧ maVar (none :: xs) = maVar xs) ∧
    (maVals (getNdviMA nir red) = [] →
      (statsUpdate s nir red true).ndvi_avg = some none ∧
      (statsUpdate s nir red true).ndvi_max = some none ∧
      (statsUpdate s nir red true).ndvi_min = some none ∧
      (statsUpdate s nir red true).ndvi_std = some none) := by
  refine ⟨rfl, rfl, ?_, ?_, ⟨?_, ?_, ?_, ?_⟩, ?_⟩
  · intro h
    simp [ndviCell, h]
  · intro h
    simp [ndviCell, h]
  · simp [maMean, maVals_cons_none]
  · simp [maMax, maVals_cons_none]
  · simp [maMin, maVals_cons_none]
  · simp [maVar, maVals_cons_none]
  · intro h
    refine ⟨?_, ?_, ?_, ?_⟩ <;>
      simp [statsUpdate, maMean, maMax, maMin, maVar, h]

/-- Witness for C3: a cell with denominator 42 + (-42) = 0 is masked, and
on the concrete all-masked bands [none] the statistics call completes
with a masked average. -/
theorem ndvi_statistics_masked_cells_witness :
    ndviCell (some 42) (some (-42)) = none ∧
    (statsUpdate initState [none] [none] true).ndvi_avg = some none :=
  ⟨(ndvi_statistics_masked_cells [none] [none] [] initState 42 (-42)).2.2.1
      (by norm_num),
   ((ndvi_statistics_masked_cells [none] [none] [] initState 42 (-42)).2.2.2.2.2
      (by rfl)).1⟩

/-- Counterexample for C3 as stated: on the concrete all-masked bands
[none, none] and [none, none] (every pixel invalid), calc_ndvi with
full_statistics does not fail with a NoValidPixels error; it completes
and stores the numpy masked constant in the average, maximum, minimum and
standard-deviation fields. -/
theorem ndvi_all_masked_counterexample :
    (statsUpdate initState [none, none] [none, none] true).ndvi_avg = some none ∧
    (statsUpdate initState [none, none] [none, none] true).ndvi_max = some none ∧
    (statsUpdate initState [none, none] [none, none] true).ndvi_min = some none ∧
    (statsUpdate initState [none, none] [none, none] true).ndvi_std = some none := by
  refine ⟨rfl, rfl, rfl, rfl⟩

/-- Claim C4 (code evaluated at the failing input): _get_ndvi performs no
shape check. Feeding the shape-(1,) band [8] and the shape-(3,) band
[2, 4, 6] silently broadcasts and returns the index array
[3/5, 1/3, 1/7] instead of raising BandMisalignment, and feeding the
incompatible shapes (2,) and (3,) makes numpy raise a generic ValueError
during the arithmetic, not a BandMisalignment check. -/
theorem get_ndvi_no_shape_check :
    np_get_ndvi [8] [2, 4, 6] = NpResult.ok [3 / 5, 1 / 3, 1 / 7] ∧
    np_get_ndvi [1, 2] [1, 2, 3] = NpResult.valueError := by
  constructor
  · show NpResult.ok (List.zipWith _ _ _) = _
    norm_num [broadcastLen, broadcastTo, List.replicate]
  · rfl

/-- Claim C10: when calc_ndvi runs with full_statistics = False, the
instance fields ndvi_max, ndvi_min and ndvi_std keep whatever value they
had before the call, while ndvi_array and ndvi_avg are overwritten by
every call regardless of the flag. -/
theorem calc_ndvi_frame_effect (s : CalcState) (nir red : List (Option ℚ))
    (b : Bool) :
    (statsUpdate s nir red false).ndvi_max = s.ndvi_max ∧
    (statsUpdate s nir red false).ndvi_min = s.ndvi_min ∧
    (statsUpdate s nir red false).ndvi_std = s.ndvi_std ∧
    (statsUpdate s nir red b).ndvi_array = some (getNdviMA nir red) ∧
    (statsUpdate s nir red b).ndvi_avg = some (maMean (getNdviMA nir red)) := by
  cases b <;> simp [statsUpdate]

/-- Claim C5 (amended): _get_file_geometry unwraps a Feature to its
geometry; for a FeatureCollection it returns the first feature's geometry
and warns exactly when more than one feature is present; malformed JSON
is caught, None is returned, and calc_ndvi aborts without proceeding to
extraction. But any other type value does not fail with an
InvalidGeometry condition: the content is returned unchanged and the
caller proceeds to extraction with it. -/
theorem get_file_geometry_cases (content t g f : Json) (rest : List Json) :
    (getFileGeometry (Except.error ()) = GeomResult.invalidJson ∧
     calcNdviStart (Except.error ()) = CalcStart.aborted 0) ∧
    (content.getItem "type" = some (Json.str "Feature") →
     content.getItem "geometry" = some g →
     getFileGeometry (Except.ok content) = GeomResult.geom g false) ∧
    (content.getItem "type" = some (Json.str "FeatureCollection") →
     content.getItem "features" = some (Json.arr (f :: rest)) →
     f.getItem "geometry" = some g →
     (getFileGeometry (Except.ok content) = GeomResult.geom g (!rest.isEmpty) ∧
      ((!rest.isEmpty) = true ↔ 1 < (f :: rest).length))) ∧
    (content.getItem "type" = some t →
     isTypeStr t "Feature" = false →
     isTypeStr t "FeatureCollection" = false →
     (getFileGeometry (Except.ok content) = GeomResult.geom content false ∧
      calcNdviStart (Except.ok content) = CalcStart.proceeds content)) := by
  refine ⟨⟨rfl, rfl⟩, ?_, ?_, ?_⟩
  · intro h1 h2
    simp [getFileGeometry, h1, h2, isTypeStr]
  · intro h1 h2 h3
    constructor
    · simp [getFileGeometry, h1, h2, h3, isTypeStr]
    · cases rest <;> simp
  · intro h1 h2 h3
    have hg : getFileGeometry (Except.ok content) = GeomResult.geom content false := by
      simp [getFileGeometry, h1, h2, h3]
    exact ⟨hg, by simp [calcNdviStart, hg]⟩

/-- Witness for C5: a concrete Feature wrapping the polygon geometry is
unwrapped to that geometry, and a concrete two-feature FeatureCollection
returns the first geometry with the warning printed. -/
theorem get_file_geometry_cases_witness :
    getFileGeometry (Except.ok (Json.obj
      [("type", Json.str "Feature"), ("geometry", polyGeom)])) =
      GeomResult.geom polyGeom false ∧
    getFileGeometry (Except.ok (Json.obj
      [("type", Json.str "FeatureCollection"),
       ("features", Json.arr
         [Json.obj [("geometry", polyGeom)],
          Json.obj [("geometry", Json.null)]])])) =
      GeomResult.geom polyGeom true :=
  ⟨(get_file_geometry_cases
      (Json.obj [("type", Json.str "Feature"), ("geometry", polyGeom)])
      Json.null polyGeom Json.null []).2.1 (by rfl) (by rfl),
   by
    have h := (get_file_geometry_cases
      (Json.obj [("type", Json.str "FeatureCollection"),
        ("features", Json.arr
          [Json.obj [("geometry", polyGeom)],
           Json.obj [("geometry", Json.null)]])])
      Json.null polyGeom (Json.obj [("geometry", polyGeom)])
      [Json.obj [("geometry", Json.null)]]).2.2.1 (by rfl) (by rfl) (by rfl)
    exact h.1⟩

/-- Counterexample for C5 as stated: the concrete parsed input whose type
is "Polygon" (neither Feature nor FeatureCollection) does not fail with
an InvalidGeometry condition; _get_file_geometry returns the content
unchanged and calc_ndvi proceeds to extraction with it. -/
theorem get_file_geometry_passthrough_counterexample :
    getFileGeometry (Except.ok polyGeom) = GeomResult.geom polyGeom false ∧
    getFileGeometry (Except.ok polyGeom) ≠ GeomResult.invalidJson ∧
    calcNdviStart (Except.ok polyGeom) = CalcStart.proceeds polyGeom := by
  refine ⟨rfl, ?_, rfl⟩
  intro h
  exact GeomResult.noConfusion h

/-- Claim C7 (code evaluated at the failing inputs): both fatal abort
sites of calc_ndvi call the Python builtin exit() with no argument, so
the process terminates with exit status 0, not a non-zero status: the
invalid-geometry abort (lines 155-158) and the out-of-bounds abort
(lines 183-186) both produce exit code 0. -/
theorem fatal_exit_status_zero :
    calcNdviStart (Except.error ()) = CalcStart.aborted 0 ∧
    checkAndRead (-3, 7) (4, 9) = ExtractStep.aborted 0 ∧
    pyExitCode none = 0 := by
  refine ⟨rfl, by decide, rfl⟩

/-- Helper: if hay starts with a longer needle, it starts with every
shorter front of that needle. -/
theorem startsWith_append_true (n rest : List Char) :
    ∀ hay, startsWith (n ++ rest) hay = true → startsWith n hay = true := by
  induction n with
  | nil => intro hay _; rfl
  | cons a ns ih =>
    intro hay h
    cases hay with
    | nil => simp [startsWith] at h
    | cons b hs =>
      simp only [List.cons_append, startsWith, Bool.and_eq_true] at h ⊢
      exact ⟨h.1, ih hs h.2⟩

/-- Helper: an occurrence of a longer needle in hay yields an occurrence
of every shorter front of that needle. -/
theorem pyIn_append_true (n rest : List Char) :
    ∀ hay, pyIn (n ++ rest) hay = true → pyIn n hay = true := by
  intro hay
  induction hay with
  | nil =>
    intro h
    exact startsWith_append_true n rest [] h
  | cons b hs ih =>
    intro h
    simp only [pyIn, Bool.or_eq_true] at h ⊢
    cases h with
    | inl h => exact Or.inl (startsWith_append_true n rest (b :: hs) h)
    | inr h => exact Or.inr (ih h)

/-- Claim C8: the branch condition of _get_file_geometry, "http" in
file_path or "https" in file_path, holds exactly when "http" occurs as a
substring of file_path; in particular the local path
/data/http_cache/a.geojson is classified as a URL and fetched remotely
instead of being opened as a local file. -/
theorem url_check_substring :
    (∀ s : List Char, urlBranch s = pyIn httpChars s) ∧
    pyIn httpChars
      ['/', 'd', 'a', 't', 'a', '/', 'h', 't', 't', 'p', '_', 'c', 'a',
       'c', 'h', 'e', '/', 'a', '.', 'g', 'e', 'o', 'j', 's', 'o', 'n'] = true ∧
    geometryAccess
      ['/', 'd', 'a', 't', 'a', '/', 'h', 't', 't', 'p', '_', 'c', 'a',
       'c', 'h', 'e', '/', 'a', '.', 'g', 'e', 'o', 'j', 's', 'o', 'n'] =
      FileAccess.remoteFetch := by
  refine ⟨?_, by decide, by decide⟩
  intro s
  unfold urlBranch
  cases h : pyIn httpChars s with
  | true => simp [h]
  | false =>
    rw [Bool.false_or]
    cases h2 : pyIn httpsChars s with
    | false => rfl
    | true =>
      have h3 : pyIn (httpChars ++ ['s']) s = true := by
        rw [show httpChars ++ ['s'] = httpsChars from rfl]
        exact h2
      have h4 := pyIn_append_true httpChars ['s'] s h3
      rw [h] at h4
      exact Bool.noConfusion h4

/-- Claim C9: the pixel-window computation is deterministic. Two runs of
the pixel computation of calc_ndvi given equal raster affine transforms
and equal transformer outputs for the two corners produce identical
pixel_upper_left and pixel_lower_right and an identical outcome of the
bounds check and window construction. -/
theorem pixel_window_deterministic (t₁ t₂ : AffineTransform)
    (ul₁ ul₂ lr₁ lr₂ : ℚ × ℚ)
    (ht : t₁ = t₂) (hul : ul₁ = ul₂) (hlr : lr₁ = lr₂) :
    rowcol t₁ ul₁.1 ul₁.2 = rowcol t₂ ul₂.1 ul₂.2 ∧
    rowcol t₁ lr₁.1 lr₁.2 = rowcol t₂ lr₂.1 lr₂.2 ∧
    extractPipeline t₁ ul₁ lr₁ = extractPipeline t₂ ul₂ lr₂ := by
  subst ht
  subst hul
  subst hlr
  exact ⟨rfl, rfl, rfl⟩

/-- Witness for C9: two runs on the concrete Sentinel-2-style transform
(10-metre pixels anchored at easting 399960, northing 6300040) and the
concrete corner coordinates agree. -/
theorem pixel_window_deterministic_witness :
    extractPipeline ⟨10, 0, 399960, 0, -10, 6300040⟩ (500000, 6200000)
        (510000, 6190000) =
      extractPipeline ⟨10, 0, 399960, 0, -10, 6300040⟩ (500000, 6200000)
        (510000, 6190000) :=
  (pixel_window_deterministic ⟨10, 0, 399960, 0, -10, 6300040⟩
    ⟨10, 0, 399960, 0, -10, 6300040⟩ (500000, 6200000) (500000, 6200000)
    (510000, 6190000) (510000, 6190000) rfl rfl rfl).2.2
